import Mathlib

/-!
Verification of the benchmarking harness in scripts/performance_comparison.py.

The script times two LinkML implementations (the Python library, called
in-process, and a Rust CLI, invoked as a subprocess) over fixture workloads
and prints a side-by-side comparison.  We embed the harness shallowly:

* wall-clock readings of time.time() are explicit rational parameters
  (the embedding works in exact rationals, so no NaN value exists);
* a measured operation is an OpOutcome: it either returns a payload or
  raises a fault carrying a message; a Python exception propagating out of
  a function is modelled by the function returning Except.error;
* the filesystem seen by os.path.exists is a predicate on paths;
* the subprocess.run call is abstracted by a RunOutcome (completed with an
  exit code and captured stdout/stderr, or timed out);
* a result dict such as {'parse_ms': 1.2} is an association list of stage
  keys to rationals, together with an optional error entry standing for
  the string-valued 'error' key of the binary-not-found dict;
* printed lines relevant to the claims are collected in a log, and the
  temporary files left on disk when the Rust adapter returns are collected
  in a list, so cleanup behaviour is visible in the result type.
-/

/-- Outcome of invoking a zero-argument operation: it either returns a value
or raises a fault carrying a message. -/
inductive OpOutcome (α : Type) where
  | ok : α → OpOutcome α
  | fault : String → OpOutcome α
deriving Repr, DecidableEq

/-- Embeds measure_time: start = time.time(); result = func(...);
end = time.time(); return (end - start) * 1000, result.
There is no try/except in the source, so a fault raised by func propagates
to the caller (Except.error); the elapsed time is returned only on success. -/
def measure_time {α : Type} (t0 t1 : ℚ) (op : OpOutcome α) :
    Except String (ℚ × α) :=
  match op with
  | OpOutcome.ok a => Except.ok ((t1 - t0) * 1000, a)
  | OpOutcome.fault msg => Except.error msg

/-- A benchmark result dict.  Numeric stage entries (parse_ms,
schema_view_ms, validate_ms) are kept in an association list; the
string-valued 'error' key of the binary-not-found dict is kept separately
since the reporter never reads it through a stage key. -/
structure AdapterResult where
  stages : List (String × ℚ)
  error : Option String
deriving Repr, DecidableEq

/-- Embeds results.get(key, -1): look a stage key up, defaulting to the
sentinel -1 when the key is absent. -/
def getStage (res : AdapterResult) (key : String) : ℚ :=
  match res.stages.lookup key with
  | some v => v
  | none => -1

/-- Embeds benchmark_python_linkml.  Each stage is a measure_time call with
its own pair of clock readings.  Only the validate call sits inside a
try/except in the source; a fault of the parse or SchemaView stage
propagates out of the function. -/
def benchmark_python_linkml (tp0 tp1 tv0 tv1 ta0 ta1 : ℚ)
    (parseOp viewOp validateOp : OpOutcome Unit) :
    Except String AdapterResult :=
  match measure_time tp0 tp1 parseOp with
  | Except.error e => Except.error e
  | Except.ok (parse_ms, _) =>
    match measure_time tv0 tv1 viewOp with
    | Except.error e => Except.error e
    | Except.ok (view_ms, _) =>
      match measure_time ta0 ta1 validateOp with
      | Except.error _ =>
          Except.ok { stages := [(("parse_ms"), parse_ms),
                                 (("schema_view_ms"), view_ms),
                                 (("validate_ms"), -1)],
                      error := none }
      | Except.ok (validate_ms, _) =>
          Except.ok { stages := [(("parse_ms"), parse_ms),
                                 (("schema_view_ms"), view_ms),
                                 (("validate_ms"), validate_ms)],
                      error := none }

/-- The temporary schema path of benchmark_rust_linkml. -/
def schema_file : String := "/tmp/test_schema.yaml"

/-- The temporary data path of benchmark_rust_linkml. -/
def data_file : String := "/tmp/test_data.json"

/-- The ordered candidate locations probed for the linkml-cli binary. -/
def candidatePaths : List String :=
  [("./target/release/linkml-cli"),
   ("./target/debug/linkml-cli"),
   ("../../../target/release/linkml-cli"),
   ("../../../target/debug/linkml-cli")]

/-- Embeds the binary-discovery loop of benchmark_rust_linkml: the first
candidate for which os.path.exists returns true wins; fsExists is the
filesystem predicate behind os.path.exists.  The source tests existence
only. -/
def findCli (fsExists : String → Bool) : Option String :=
  candidatePaths.find? fsExists

/-- A path as the claims describe it: whether it exists and whether it is
executable.  The source only ever consults the first component. -/
structure FileInfo where
  path_exists : Bool
  executable : Bool
deriving Repr, DecidableEq

/-- Modelled from the spec (for comparison with findCli, not from the
source): discovery as the spec words it, where the first candidate that
both exists and is executable wins. -/
def findCli_per_spec (info : String → FileInfo) : Option String :=
  candidatePaths.find? (fun p => (info p).path_exists && (info p).executable)

/-- Abstract outcome of the subprocess.run call: the process completed
with an exit code and captured stdout/stderr, or the 10-second timeout
expired (raising subprocess.TimeoutExpired, which the source catches). -/
inductive RunOutcome where
  | completed : Int → String → String → RunOutcome
  | timedOut : RunOutcome
deriving Repr, DecidableEq

/-- What benchmark_rust_linkml leaves behind: its result dict, the
temporary files still on disk when it returns, and the diagnostic lines
it printed. -/
structure RustBenchOutput where
  result : AdapterResult
  remainingTempFiles : List String
  log : List String
deriving Repr, DecidableEq

/-- Embeds benchmark_rust_linkml.  The schema and data are first written to
the two fixed /tmp paths.  If no candidate binary exists the function
returns the error dict early, before the os.unlink calls, so both
temporary files remain.  Otherwise the subprocess outcome decides the
validate_ms entry (sentinel -1 on a non-zero exit code or on timeout,
elapsed wall time otherwise) and both files are unlinked. -/
def benchmark_rust_linkml (fsExists : String → Bool) (run : RunOutcome)
    (t0 t1 : ℚ) : RustBenchOutput :=
  match findCli fsExists with
  | none =>
      { result := { stages := [], error := some ("Binary not found") },
        remainingTempFiles := [schema_file, data_file],
        log := [("Error: linkml-cli binary not found. Please build the Rust project first.")] }
  | some _ =>
      match run with
      | RunOutcome.completed rc _ stderr =>
          if rc ≠ 0 then
            { result := { stages := [(("validate_ms"), -1)], error := none },
              remainingTempFiles := [],
              log := [("Rust validation error: ") ++ stderr] }
          else
            { result := { stages := [(("validate_ms"), (t1 - t0) * 1000)],
                          error := none },
              remainingTempFiles := [], log := [] }
      | RunOutcome.timedOut =>
          { result := { stages := [(("validate_ms"), -1)], error := none },
            remainingTempFiles := [], log := [] }

/-- A workload fixture as used by main: a schema name and the target class
passed to both adapters. -/
structure Workload where
  name : String
  target_class : String
deriving Repr, DecidableEq

/-- The simple-schema workload of main. -/
def simpleWorkload : Workload :=
  { name := "SimpleSchema", target_class := "Person" }

/-- The medium-schema workload of main. -/
def mediumWorkload : Workload :=
  { name := "MediumSchema", target_class := "Organization" }

/-- The temporary paths benchmark_rust_linkml uses for a workload: the
source hard-codes /tmp/test_schema.yaml and /tmp/test_data.json for every
invocation, independent of the workload. -/
def tempPaths (_w : Workload) : String × String :=
  (schema_file, data_file)

/-- The metric rows of print_comparison: label and stage key. -/
def metrics : List (String × String) :=
  [(("Parse time"), ("parse_ms")),
   (("SchemaView creation"), ("schema_view_ms")),
   (("Validation time"), ("validate_ms"))]

/-- One printed comparison line: the label, the two displayed durations
(none rendering as the N/A marker) and the displayed speedup ratio. -/
structure Row where
  label : String
  left : Option ℚ
  right : Option ℚ
  speedup : Option ℚ
deriving Repr, DecidableEq

/-- Embeds the body of the metrics loop of print_comparison: if both
durations are positive a full row with speedup py/rs is printed; if only
the Python one is positive the Rust side is N/A; if only the Rust one is
positive the Python side is N/A; otherwise nothing is printed (the
if/elif/elif chain has no else branch). -/
def comparisonRow (label : String) (py_time rs_time : ℚ) : Option Row :=
  if 0 < py_time ∧ 0 < rs_time then
    some { label := label, left := some py_time, right := some rs_time,
           speedup := some (py_time / rs_time) }
  else if 0 < py_time then
    some { label := label, left := some py_time, right := none, speedup := none }
  else if 0 < rs_time then
    some { label := label, left := none, right := some rs_time, speedup := none }
  else
    none

/-- Embeds print_comparison: for each metric the two stage durations are
read with .get(key, -1) and the row, when one is produced, is printed. -/
def print_comparison (python_results rust_results : AdapterResult) :
    List Row :=
  metrics.filterMap (fun m =>
    comparisonRow m.1 (getStage python_results m.2) (getStage rust_results m.2))

/-- The dict returned by benchmark_rust_linkml when no binary candidate
exists: only the 'error' key, no stage entry. -/
def binaryNotFoundResult : AdapterResult :=
  { stages := [], error := some ("Binary not found") }

/-- An adapter result carrying the sentinel -1 explicitly for all three
stages. -/
def allSentinelResult : AdapterResult :=
  { stages := [(("parse_ms"), -1), (("schema_view_ms"), -1),
               (("validate_ms"), -1)],
    error := none }

/-- C1 counterexample: measure_time does not catch a fault.  At the
concrete fault "boom" the fault escapes to the caller (Except.error)
instead of being returned as a failure outcome together with the elapsed
time, so the claim that no fault ever escapes from measure is false. -/
theorem C1_counterexample :
    measure_time (0 : ℚ) 1 (OpOutcome.fault ("boom") : OpOutcome Unit)
      = Except.error ("boom") := rfl

/-- C1 amended: measure_time propagates a fault of the operation to its
caller together with the fault message, reporting no elapsed time for that
call; on success it returns the elapsed milliseconds and the payload.
(The in-process adapter, not the invoker, catches the fault, and only
around the validate stage.) -/
theorem C1_amended (t0 t1 : ℚ) (msg : String) (a : Unit) :
    measure_time t0 t1 (OpOutcome.fault msg : OpOutcome Unit) = Except.error msg
    ∧ measure_time t0 t1 (OpOutcome.ok a) = Except.ok ((t1 - t0) * 1000, a) :=
  ⟨rfl, rfl⟩

/-- C2 counterexample: with both adapter results empty (every stage read
as the sentinel -1), print_comparison prints no metric row at all — the
fully-unavailable rows are dropped, not printed. -/
theorem C2_counterexample :
    print_comparison { stages := [], error := none }
      { stages := [], error := none } = [] := rfl

/-- C2 amended: the reporter prints a row for a stage exactly when at
least one side has a positive duration; a row where neither side is
positive is silently dropped. -/
theorem C2_amended (label : String) (py_time rs_time : ℚ) :
    (comparisonRow label py_time rs_time).isSome
      ↔ (0 < py_time ∨ 0 < rs_time) := by
  unfold comparisonRow
  split_ifs with h1 h2 h3 <;> simp_all

/-- C3 counterexample: when no candidate binary exists, the adapter
returns early with the error dict and both temporary files, which were
written at the start, are left on disk — cleanup does not happen on the
binary-not-found path. -/
theorem C3_counterexample :
    (benchmark_rust_linkml (fun _ => false) RunOutcome.timedOut 0 0).remainingTempFiles
      = [schema_file, data_file]
    ∧ [schema_file, data_file] ≠ ([] : List String) :=
  ⟨rfl, by decide⟩

/-- C3 amended: whenever a candidate binary is found, both temporary files
are removed before the adapter returns, on the success, non-zero-exit and
timeout paths alike; on the binary-not-found path the adapter returns
before the cleanup and both files remain. -/
theorem C3_amended (fsExists : String → Bool) (run : RunOutcome) (t0 t1 : ℚ)
    (p : String) (hfind : findCli fsExists = some p) :
    (benchmark_rust_linkml fsExists run t0 t1).remainingTempFiles = [] := by
  unfold benchmark_rust_linkml
  rw [hfind]
  cases run with
  | completed rc out err => by_cases h : rc ≠ 0 <;> simp [h]
  | timedOut => rfl

/-- C3 witness: a filesystem with the release binary present, a timed-out
run. -/
theorem C3_amended_witness :
    (benchmark_rust_linkml (fun s => s == ("./target/release/linkml-cli"))
      RunOutcome.timedOut 0 0).remainingTempFiles = [] :=
  C3_amended (fun s => s == ("./target/release/linkml-cli"))
    RunOutcome.timedOut 0 0 ("./target/release/linkml-cli") (by decide)

/-- C4 counterexample: at the pair (-1, -1) the reporter produces no row
at all, so nothing is marked unavailable there — the claimed
fully-unavailable marking is not produced. -/
theorem C4_counterexample :
    (comparisonRow ("Validation time") (-1 : ℚ) (-1)).isSome = false := by
  decide

/-- C4 amended: the speedup shown equals left divided by right exactly
when both durations are positive; (5, -1) yields a left-only row,
(-1, 5) a right-only row, (-1, -1) no row at all (the fully-unavailable
case is dropped), and (10, 2) a speedup of 5. -/
theorem C4_amended :
    (∀ (label : String) (p r : ℚ),
      (∃ row, comparisonRow label p r = some row ∧ row.speedup = some (p / r))
        ↔ (0 < p ∧ 0 < r))
    ∧ comparisonRow ("Validation time") (5 : ℚ) (-1)
        = some { label := ("Validation time"), left := some 5, right := none,
                 speedup := none }
    ∧ comparisonRow ("Validation time") (-1 : ℚ) (5)
        = some { label := ("Validation time"), left := none, right := some 5,
                 speedup := none }
    ∧ comparisonRow ("Validation time") (-1 : ℚ) (-1) = none
    ∧ comparisonRow ("Validation time") (10 : ℚ) (2)
        = some { label := ("Validation time"), left := some 10, right := some 2,
                 speedup := some 5 } := by
  refine ⟨?_, ?_, ?_, ?_, ?_⟩
  · intro label p r
    unfold comparisonRow
    split_ifs with h1 h2 h3 <;> simp_all
  all_goals norm_num [comparisonRow]

/-- C5: whenever a binary is found, a non-zero exit code yields the
sentinel -1 for the validate stage with the captured stderr printed as a
diagnostic, and a timeout also yields the sentinel -1.  No exception
escapes the adapter: benchmark_rust_linkml is total into RustBenchOutput
(subprocess.TimeoutExpired is the only exception the call can raise here
and it is caught). -/
theorem C5_failure_sentinel (fsExists : String → Bool) (t0 t1 : ℚ)
    (p : String) (rc : Int) (out err : String)
    (hfind : findCli fsExists = some p) (hrc : rc ≠ 0) :
    getStage (benchmark_rust_linkml fsExists (RunOutcome.completed rc out err)
        t0 t1).result ("validate_ms") = -1
    ∧ (benchmark_rust_linkml fsExists (RunOutcome.completed rc out err)
        t0 t1).log = [("Rust validation error: ") ++ err]
    ∧ getStage (benchmark_rust_linkml fsExists RunOutcome.timedOut
        t0 t1).result ("validate_ms") = -1 := by
  unfold benchmark_rust_linkml
  rw [hfind]
  refine ⟨?_, ?_, ?_⟩ <;> simp [hrc, getStage]

/-- C5 witness: the debug binary present, exit code 1 with stderr boom,
and a timed-out run. -/
theorem C5_failure_sentinel_witness :
    getStage (benchmark_rust_linkml (fun s => s == ("./target/debug/linkml-cli"))
        (RunOutcome.completed 1 ("") ("boom")) 0 0).result ("validate_ms") = -1
    ∧ (benchmark_rust_linkml (fun s => s == ("./target/debug/linkml-cli"))
        (RunOutcome.completed 1 ("") ("boom")) 0 0).log
        = [("Rust validation error: ") ++ ("boom")]
    ∧ getStage (benchmark_rust_linkml (fun s => s == ("./target/debug/linkml-cli"))
        RunOutcome.timedOut 0 0).result ("validate_ms") = -1 :=
  C5_failure_sentinel (fun s => s == ("./target/debug/linkml-cli")) 0 0
    ("./target/debug/linkml-cli") 1 ("") ("boom") (by decide) (by decide)

/-- A filesystem in which the first candidate exists but is not
executable while the second candidate exists and is executable. -/
def env0 : String → FileInfo := fun s =>
  if s = ("./target/release/linkml-cli") then
    { path_exists := true, executable := false }
  else if s = ("./target/debug/linkml-cli") then
    { path_exists := true, executable := true }
  else
    { path_exists := false, executable := false }

/-- C6 counterexample: the source selects the first candidate that merely
exists, even though it is not executable, while the claimed
exists-and-executable probing would select the second candidate. -/
theorem C6_counterexample :
    findCli (fun s => (env0 s).path_exists)
      = some ("./target/release/linkml-cli")
    ∧ (env0 ("./target/release/linkml-cli")).executable = false
    ∧ findCli_per_spec env0 = some ("./target/debug/linkml-cli") := by
  refine ⟨by decide, by decide, by decide⟩

/-- C6 amended: the adapter probes the ordered candidate list and selects
the first path that exists (executability is not checked); when no
candidate exists, the run continues with the fully-unavailable error
result, every stage reading as the sentinel -1. -/
theorem C6_amended (fsExists : String → Bool) (run : RunOutcome) (t0 t1 : ℚ) :
    (∀ p, findCli fsExists = some p → p ∈ candidatePaths ∧ fsExists p = true)
    ∧ (fsExists ("./target/release/linkml-cli") = true →
        findCli fsExists = some ("./target/release/linkml-cli"))
    ∧ ((∀ p ∈ candidatePaths, fsExists p = false) →
        (benchmark_rust_linkml fsExists run t0 t1).result = binaryNotFoundResult
        ∧ getStage (benchmark_rust_linkml fsExists run t0 t1).result ("parse_ms") = -1
        ∧ getStage (benchmark_rust_linkml fsExists run t0 t1).result ("schema_view_ms") = -1
        ∧ getStage (benchmark_rust_linkml fsExists run t0 t1).result ("validate_ms") = -1) := by
  refine ⟨?_, ?_, ?_⟩
  · intro p hp
    exact ⟨List.mem_of_find?_eq_some hp, List.find?_some hp⟩
  · intro h
    simp [findCli, candidatePaths, List.find?_cons, h]
  · intro h
    have hnone : findCli fsExists = none := by
      rw [findCli]
      refine List.find?_eq_none.mpr ?_
      intro x hx
      simp [h x hx]
    simp [benchmark_rust_linkml, hnone, binaryNotFoundResult, getStage]

/-- C6 witness: an all-present filesystem for the positive conjuncts and
an empty filesystem for the not-found conjunct. -/
theorem C6_amended_witness :
    (("./target/release/linkml-cli") ∈ candidatePaths
      ∧ (fun _ : String => true) ("./target/release/linkml-cli") = true)
    ∧ findCli (fun _ : String => true) = some ("./target/release/linkml-cli")
    ∧ (benchmark_rust_linkml (fun _ : String => false) RunOutcome.timedOut 0 0).result
        = binaryNotFoundResult :=
  ⟨(C6_amended (fun _ : String => true) RunOutcome.timedOut 0 0).1
      ("./target/release/linkml-cli") (by decide),
   (C6_amended (fun _ : String => true) RunOutcome.timedOut 0 0).2.1 rfl,
   ((C6_amended (fun _ : String => false) RunOutcome.timedOut 0 0).2.2
      (by intro p _; rfl)).1⟩

/-- C7 counterexample: the simple and medium workloads are distinct yet
both invocations use the very same temporary paths — the hard-coded
/tmp/test_schema.yaml and /tmp/test_data.json — so distinct workloads do
collide. -/
theorem C7_counterexample :
    simpleWorkload ≠ mediumWorkload
    ∧ tempPaths simpleWorkload = tempPaths mediumWorkload :=
  ⟨by decide, rfl⟩

/-- C7 amended: every invocation writes the schema and data to the same
two fixed paths, independent of workload and process, so any two
invocations collide. -/
theorem C7_amended (w1 w2 : Workload) :
    tempPaths w1 = (("/tmp/test_schema.yaml"), ("/tmp/test_data.json"))
    ∧ tempPaths w1 = tempPaths w2 :=
  ⟨rfl, rfl⟩

/-- C8 counterexample: a fault of the parse stage escapes the in-process
adapter as an exception — no result mapping (with unavailable downstream
stages) is produced at all, since only the validate call is wrapped in a
try/except. -/
theorem C8_counterexample :
    benchmark_python_linkml 0 1 0 1 0 1 (OpOutcome.fault ("boom"))
      (OpOutcome.ok ()) (OpOutcome.ok ()) = Except.error ("boom") := rfl

/-- C8 amended: the three stages are timed individually in sequence; a
validate-stage fault is caught, leaving the parse and schema-view timings
intact and recording the sentinel -1 for validate (no stage follows
validate); a parse-stage or schema-view-stage fault instead propagates
out of the adapter uncaught. -/
theorem C8_amended (tp0 tp1 tv0 tv1 ta0 ta1 : ℚ) (msg : String) :
    benchmark_python_linkml tp0 tp1 tv0 tv1 ta0 ta1 (OpOutcome.ok ())
        (OpOutcome.ok ()) (OpOutcome.fault msg)
      = Except.ok { stages := [(("parse_ms"), (tp1 - tp0) * 1000),
                               (("schema_view_ms"), (tv1 - tv0) * 1000),
                               (("validate_ms"), -1)],
                    error := none }
    ∧ benchmark_python_linkml tp0 tp1 tv0 tv1 ta0 ta1 (OpOutcome.fault msg)
        (OpOutcome.ok ()) (OpOutcome.ok ())
      = Except.error msg
    ∧ benchmark_python_linkml tp0 tp1 tv0 tv1 ta0 ta1 (OpOutcome.ok ())
        (OpOutcome.fault msg) (OpOutcome.ok ())
      = Except.error msg :=
  ⟨rfl, rfl, rfl⟩

/-- C9: with non-decreasing clock readings (time.time sampled after is at
least time.time sampled before), every duration recorded in either
adapter's result mapping is non-negative or exactly the sentinel -1;
no other negative value occurs, and no NaN exists in this exact-rational
model of the arithmetic. -/
theorem C9_durations (tp0 tp1 tv0 tv1 ta0 ta1 : ℚ)
    (parseOp viewOp validateOp : OpOutcome Unit)
    (fsExists : String → Bool) (run : RunOutcome) (t0 t1 : ℚ)
    (hp : tp0 ≤ tp1) (hv : tv0 ≤ tv1) (ha : ta0 ≤ ta1) (hr : t0 ≤ t1) :
    (∀ d, benchmark_python_linkml tp0 tp1 tv0 tv1 ta0 ta1 parseOp viewOp
        validateOp = Except.ok d → ∀ kv ∈ d.stages, 0 ≤ kv.2 ∨ kv.2 = -1)
    ∧ (∀ kv ∈ (benchmark_rust_linkml fsExists run t0 t1).result.stages,
        0 ≤ kv.2 ∨ kv.2 = -1) := by
  have hnn : ∀ a b : ℚ, a ≤ b → 0 ≤ (b - a) * 1000 := fun a b h =>
    mul_nonneg (sub_nonneg.mpr h) (by norm_num)
  constructor
  · intro d hd kv hkv
    cases parseOp with
    | fault m => simp [benchmark_python_linkml, measure_time] at hd
    | ok a =>
      cases viewOp with
      | fault m => simp [benchmark_python_linkml, measure_time] at hd
      | ok b =>
        cases validateOp with
        | fault m =>
          injection hd with hd
          subst hd
          simp only [List.mem_cons, List.not_mem_nil, or_false] at hkv
          rcases hkv with rfl | rfl | rfl
          · exact Or.inl (hnn _ _ hp)
          · exact Or.inl (hnn _ _ hv)
          · exact Or.inr rfl
        | ok c =>
          injection hd with hd
          subst hd
          simp only [List.mem_cons, List.not_mem_nil, or_false] at hkv
          rcases hkv with rfl | rfl | rfl
          · exact Or.inl (hnn _ _ hp)
          · exact Or.inl (hnn _ _ hv)
          · exact Or.inl (hnn _ _ ha)
  · intro kv hkv
    cases hfc : findCli fsExists with
    | none => simp [benchmark_rust_linkml, hfc] at hkv
    | some p =>
      cases run with
      | timedOut =>
        simp only [benchmark_rust_linkml, hfc, List.mem_cons,
          List.not_mem_nil, or_false] at hkv
        subst hkv
        exact Or.inr rfl
      | completed rc out err =>
        by_cases hrc : rc ≠ 0
        · simp only [benchmark_rust_linkml, hfc, if_pos hrc, List.mem_cons,
            List.not_mem_nil, or_false] at hkv
          subst hkv
          exact Or.inr rfl
        · simp only [benchmark_rust_linkml, hfc, if_neg hrc, List.mem_cons,
            List.not_mem_nil, or_false] at hkv
          subst hkv
          exact Or.inl (hnn _ _ hr)

/-- C9 witness: all clock readings zero, successful operations, empty
filesystem, timed-out run. -/
theorem C9_durations_witness :
    (∀ d, benchmark_python_linkml 0 0 0 0 0 0 (OpOutcome.ok ())
        (OpOutcome.ok ()) (OpOutcome.ok ()) = Except.ok d →
        ∀ kv ∈ d.stages, 0 ≤ kv.2 ∨ kv.2 = -1)
    ∧ (∀ kv ∈ (benchmark_rust_linkml (fun _ : String => false)
        RunOutcome.timedOut 0 0).result.stages, 0 ≤ kv.2 ∨ kv.2 = -1) :=
  C9_durations 0 0 0 0 0 0 (OpOutcome.ok ()) (OpOutcome.ok ())
    (OpOutcome.ok ()) (fun _ : String => false) RunOutcome.timedOut 0 0
    le_rfl le_rfl le_rfl le_rfl

/-- C10: a stage key absent from a result mapping reads as the sentinel
-1, so the reporter accepts partial or empty mappings: the binary-not-found
dict (only an error entry) compares exactly like an all-sentinel dict, and
the Rust adapter's normal dict (only validate_ms) reads -1 for parse_ms. -/
theorem C10_absent_defaults :
    (∀ (res : AdapterResult) (key : String),
      res.stages.lookup key = none → getStage res key = -1)
    ∧ (∀ py, print_comparison py binaryNotFoundResult
        = print_comparison py allSentinelResult)
    ∧ (∀ v : ℚ, getStage { stages := [(("validate_ms"), v)], error := none }
        ("parse_ms") = -1) := by
  refine ⟨?_, ?_, ?_⟩
  · intro res key h
    simp [getStage, h]
  · intro py
    rfl
  · intro v
    rfl

/-- C10 witness: the binary-not-found dict has no parse_ms key and reads
the sentinel for it. -/
theorem C10_absent_defaults_witness :
    getStage binaryNotFoundResult ("parse_ms") = -1 :=
  C10_absent_defaults.1 binaryNotFoundResult ("parse_ms") rfl
